import Mathlib

/-!
Verification of the ntfy-to-SIP bridge (`src/ntfy_to_sip.py`).

The development shallowly embeds the bridge's pure logic and its effectful
operations.  Byte strings are modelled as Lean `String`s (UTF-8 encoding is
injective and all protocol constants are ASCII).  Socket and HTTP side
effects are modelled as an explicit effect trace (`Effect`), with the
environment's behaviour (connection failures, peer-sent bytes, send
failures) supplied by a `World` record.  Python exceptions are modelled by
the inductive type `PyExc`; fallible operations return `Except PyExc`.
Each Lean definition names the Python function it embeds and its line
range in `src/ntfy_to_sip.py`.
-/

namespace NtfyToSip

/-- Initial-segment test on character lists: `isPre p l` is true when `p`
is an initial segment of `l`. -/
def isPre : List Char → List Char → Bool
  | [], _ => true
  | _ :: _, [] => false
  | p :: ps, c :: cs => p == c && isPre ps cs

/-- Substring containment on character lists, mirroring Python's
`pat in l` for `bytes`/`str`. -/
def hasSubL (pat : List Char) : List Char → Bool
  | [] => isPre pat []
  | c :: cs => isPre pat (c :: cs) || hasSubL pat cs

/-- Substring test on strings, mirroring Python's `in` on `bytes`/`str`
(`b"Success" in response`, `b"\r\n\r\n" in data`). -/
def hasSubS (pat s : String) : Bool := hasSubL pat.data s.data

/-- Whitespace characters stripped by Python's `str.strip()` (the ASCII
set; the claims never exercise non-ASCII whitespace). -/
def isSpaceChar (c : Char) : Bool :=
  c == ' ' || c == '\t' || c == '\n' || c == '\x0d' || c == '\x0b' || c == '\x0c'

/-- Drop leading whitespace from a character list. -/
def dropSpaces : List Char → List Char
  | [] => []
  | c :: cs => if isSpaceChar c then dropSpaces cs else c :: cs

/-- Model of Python's `str.strip()`: remove leading and trailing
whitespace. -/
def pyStrip (s : String) : String :=
  ⟨(dropSpaces (dropSpaces s.data).reverse).reverse⟩

/-- Model of Python's `str.startswith(pat)`. -/
def startsWithB (pat s : String) : Bool := isPre pat.data s.data

/-- Model of Python's slicing `s[n:]`: drop the first `n` characters. -/
def dropChars (n : Nat) (s : String) : String := ⟨s.data.drop n⟩

/-- Decimal value of a digit character, `none` for a non-digit. -/
def digVal (c : Char) : Option Nat :=
  if '0' ≤ c && c ≤ '9' then some (c.toNat - '0'.toNat) else none

/-- Accumulate a decimal digit string into a natural number, failing on
the first non-digit. -/
def digitsToNat : List Char → Nat → Option Nat
  | [], acc => some acc
  | c :: cs, acc =>
    match digVal c with
    | some d => digitsToNat cs (acc * 10 + d)
    | none => none

/-- Model of Python's `int(s)` on a string: strip surrounding whitespace,
allow one optional sign, then require a non-empty run of decimal digits;
anything else (including the empty string and a bare sign) raises, i.e.
yields `none`.  (Underscore digit grouping is elided; no claim exercises
it.) -/
def pyIntOfStr (s : String) : Option Int :=
  match (pyStrip s).data with
  | [] => none
  | '-' :: rest =>
    if rest = [] then none else (digitsToNat rest 0).map (fun n => -(n : Int))
  | '+' :: rest =>
    if rest = [] then none else (digitsToNat rest 0).map (fun n => (n : Int))
  | l => (digitsToNat l 0).map (fun n => (n : Int))

/-- Model of `_ami_line` (src/ntfy_to_sip.py:78-80): format an ordered
association list of AMI key/values into CRLF-terminated text, one
`Key: Value` line per field, the whole block followed by an extra CRLF. -/
def amiLine (fields : List (String × String)) : String :=
  String.intercalate "\r\n" (fields.map fun kv => kv.1 ++ ": " ++ kv.2) ++ "\r\n\r\n"

/-- Python exceptions relevant to the bridge. -/
inductive PyExc
  | valueError                 -- `int()` applied to a non-numeric string
  | typeError                  -- `int()` applied to `None` or similar
  | loginFailed (resp : String) -- `RuntimeError("AMI login failed: ...")`, src:102
  | notOpen                    -- `RuntimeError("AMI connection not open")`, src:118,122
  | osError                    -- socket I/O failure or timeout
  | clientError                -- `aiohttp.ClientError`
  | jsonDecodeError            -- `json.JSONDecodeError`
  deriving DecidableEq, Repr

/-- Observable side effects of the bridge, in emission order. -/
inductive Effect
  | tcpConnect (host : String) (port : Nat)  -- `socket.create_connection`, src:92
  | recvGreeting                             -- banner read, src:93
  | sendBlock (fields : List (String × String))  -- `sendall(_ami_line(...))`, src:119
  | readBlock                                -- `_read_until_blank`, src:120-132
  | sockClose                                -- `self.sock.close()`, src:113
  | logInfo (tag : String)
  | logExc                                   -- `logging.exception`, src:199
  deriving DecidableEq, Repr

/-- Behaviour of the environment (network and peer) during one dispatch:
whether `socket.create_connection` raises, whether the banner `recv`
raises, whether `sendall` raises, and the chunk sequences the peer sends
in reply to the Login and Originate blocks. -/
structure World where
  connectFails : Bool
  greetFails : Bool
  sendFails : Bool
  loginChunks : List String
  ackChunks : List String
  deriving Repr

/-- State of `AMIClient` (src:82-89); `sock = some ()` models an open
socket, `none` models `self.sock is None`. -/
structure AMIClient where
  host : String
  port : Nat
  username : String
  secret : String
  sock : Option Unit
  deriving DecidableEq, Repr

/-- Model of `AMIClient.__init__` (src:84-89): the socket field starts out
as `None`. -/
def mkAMIClient (host : String) (port : Nat) (username secret : String) : AMIClient :=
  { host := host, port := port, username := username, secret := secret, sock := none }

/-- Model of the receive loop of `AMIClient._read_until_blank`
(src:123-132).  Each element of `chunks` is one `recv(4096)` result; an
empty chunk models the peer closing the connection.  The loop stops on an
empty chunk, or as soon as the CURRENT chunk contains `"\r\n\r\n"`
(faithful to `if b"\r\n\r\n" in data`), returning the concatenation of
all chunks read.  If the chunk list runs out first, the real socket would
block until the 10 s timeout raises; that is modelled by `none`. -/
def readChunks : List String → String → Option String
  | [], _ => none
  | c :: rest, acc =>
    if c = "" then some acc
    else
      let acc2 := acc ++ c
      if hasSubS "\r\n\r\n" c then some acc2 else readChunks rest acc2

/-- Number of `recv` calls the loop of `_read_until_blank` performs on a
given chunk sequence (counting the final empty read, and all of them when
it runs out of data and would block). -/
def readConsumed : List String → Nat
  | [] => 0
  | c :: rest =>
    if c = "" then 1
    else if hasSubS "\r\n\r\n" c then 1 else 1 + readConsumed rest

/-- Modelled from the spec's words, for comparison with `readChunks`
(claim C6): a reader that stops exactly when the blank-line terminator has
been observed in the ACCUMULATED response bytes, or on a zero-length
read. -/
def readChunksAccum : List String → String → Option String
  | [], _ => none
  | c :: rest, acc =>
    if c = "" then some acc
    else
      let acc2 := acc ++ c
      if hasSubS "\r\n\r\n" acc2 then some acc2 else readChunksAccum rest acc2

/-- Model of `AMIClient._send` (src:116-119): raises
`RuntimeError("AMI connection not open")` when the socket is not open;
otherwise emits the serialized block on the socket, propagating a
`sendall` failure. -/
def sendCmd (w : World) (c : AMIClient) (fields : List (String × String)) :
    List Effect × Except PyExc Unit :=
  match c.sock with
  | none => ([], .error .notOpen)
  | some _ =>
    if w.sendFails then ([.sendBlock fields], .error .osError)
    else ([.sendBlock fields], .ok ())

/-- Model of `AMIClient._read_until_blank` as an operation (src:120-132):
raises when the socket is not open, otherwise runs the receive loop on
the supplied chunk sequence; running out of data is the read timeout. -/
def readBlankOp (c : AMIClient) (chunks : List String) :
    List Effect × Except PyExc String :=
  match c.sock with
  | none => ([], .error .notOpen)
  | some _ =>
    match readChunks chunks "" with
    | some resp => ([.readBlock], .ok resp)
    | none => ([.readBlock], .error .osError)

/-- Fields of the Login block sent by `connect` (src:94-99), in insertion
order. -/
def loginFields (username secret : String) : List (String × String) :=
  [("Action", "Login"), ("Username", username), ("Secret", secret), ("Events", "off")]

/-- Fields of the Logoff block sent by `close` (src:107). -/
def logoffFields : List (String × String) := [("Action", "Logoff")]

/-- Fields of the Originate block built by `originate_simple`
(src:135-144), in insertion order; the integer values pass through
`str()` when serialized. -/
def originateFields (channel context exten : String) (priority : Int)
    (callerid : String) (timeoutMs : Int) : List (String × String) :=
  [("Action", "Originate"), ("Channel", channel), ("Context", context),
   ("Exten", exten), ("Priority", toString priority), ("CallerID", callerid),
   ("Timeout", toString timeoutMs), ("Async", "true")]

/-- Model of `AMIClient.connect` (src:90-102): open the TCP connection
(on failure the socket field keeps its old value), read and discard the
banner, send the Login block, read the reply up to a blank line, and
raise `loginFailed` when the accumulated reply does not contain the
literal `"Success"`.  Returns the updated client, the effect trace, and
the outcome. -/
def connect (w : World) (c : AMIClient) :
    AMIClient × List Effect × Except PyExc Unit :=
  if w.connectFails then
    (c, [.tcpConnect c.host c.port], .error .osError)
  else
    let c1 := { c with sock := some () }
    let eff0 := [Effect.tcpConnect c.host c.port, Effect.recvGreeting]
    if w.greetFails then
      (c1, eff0, .error .osError)
    else
      match sendCmd w c1 (loginFields c.username c.secret) with
      | (eff1, .error e) => (c1, eff0 ++ eff1, .error e)
      | (eff1, .ok ()) =>
        match readBlankOp c1 w.loginChunks with
        | (eff2, .error e) => (c1, eff0 ++ eff1 ++ eff2, .error e)
        | (eff2, .ok resp) =>
          if hasSubS "Success" resp then (c1, eff0 ++ eff1 ++ eff2, .ok ())
          else (c1, eff0 ++ eff1 ++ eff2, .error (.loginFailed resp))

/-- Model of `AMIClient.close` (src:103-115): best-effort Logoff — the
outcome of `_send` is discarded by `except Exception: pass`, only its
effects remain — then, if the socket is open, close it and set the field
to `None`.  Total by construction: no exception escapes. -/
def closeClient (w : World) (c : AMIClient) : AMIClient × List Effect :=
  let effSend : List Effect :=
    match c.sock with
    | none => []
    | some _ => (sendCmd w c logoffFields).1
  match c.sock with
  | none => (c, effSend)
  | some _ => ({ c with sock := none }, effSend ++ [.sockClose])

/-- Model of `AMIClient.originate_simple` (src:133-146): send the
Originate block, then read and discard one blank-line-terminated response
block; either step's failure propagates. -/
def originateSimple (w : World) (c : AMIClient) (channel exten context : String)
    (priority : Int) (callerid : String) (timeoutMs : Int) :
    List Effect × Except PyExc Unit :=
  match sendCmd w c (originateFields channel context exten priority callerid timeoutMs) with
  | (eff1, .error e) => (eff1, .error e)
  | (eff1, .ok ()) =>
    match readBlankOp c w.ackChunks with
    | (eff2, .error e) => (eff1 ++ eff2, .error e)
    | (eff2, .ok _) => (eff1 ++ eff2, .ok ())

/-- Configuration constants (src:56-74), at their source defaults; they
are read-only for the life of the process and their values are irrelevant
to the claims. -/
def AMI_HOST : String := "pbx"

def AMI_PORT : Nat := 5038

def AMI_USER : String := "ntfybridge"

def AMI_PASS : String := "secret"

def EXTENSION : String := "1000"

def CALLERID : String := "NTFY Bridge <7777>"

def CHANNEL_TECH : String := "PJSIP"

def DIAL_STRING : String := CHANNEL_TECH ++ "/" ++ EXTENSION

def CONTEXT : String := "from-internal"

def PRIORITY : Int := 1

def TIMEOUT_MS : Int := 30000

/-- JSON values as delivered by `json.loads`, restricted to the subset
the bridge's claims exercise (numbers are integers). -/
inductive JVal
  | jnum (n : Int)
  | jstr (s : String)
  | jbool (b : Bool)
  | jnull
  deriving DecidableEq, Repr

/-- Model of Python's `dict.get(k, d)` on an association list. -/
def dictGet (m : List (String × JVal)) (k : String) (d : JVal) : JVal :=
  match m.find? (fun kv => kv.1 == k) with
  | some kv => kv.2
  | none => d

/-- Model of Python's `int(x)` on a JSON value: integers pass through,
booleans coerce to 0/1, a string is parsed as a decimal integer after
stripping surrounding whitespace (`ValueError` when non-numeric), and
`None` raises `TypeError`. -/
def pyInt : JVal → Except PyExc Int
  | .jnum n => .ok n
  | .jstr s =>
    match pyIntOfStr s with
    | some n => .ok n
    | none => .error .valueError
  | .jbool b => .ok (if b then 1 else 0)
  | .jnull => .error .typeError

/-- Model of the dispatch branch of `handle_ntfy_msg` (src:185-204): build
a fresh client, `connect` + `originate_simple` inside `try`, any exception
caught and logged by `except Exception` (src:198-199), `close` always run
by the `finally` (src:200-204).  Only the effect trace escapes: the
handler returns normally on every path. -/
def dispatchCall (w : World) : List Effect :=
  let ami := mkAMIClient AMI_HOST AMI_PORT AMI_USER AMI_PASS
  let r := connect w ami
  match r.2.2 with
  | .error _ =>
    r.2.1 ++ [Effect.logExc] ++ (closeClient w r.1).2
  | .ok () =>
    let o := originateSimple w r.1 DIAL_STRING EXTENSION CONTEXT PRIORITY CALLERID TIMEOUT_MS
    let effLog := match o.2 with
      | .error _ => [Effect.logExc]
      | .ok () => [Effect.logInfo "Originate sent via AMI."]
    r.2.1 ++ o.1 ++ effLog ++ (closeClient w r.1).2

/-- Model of `handle_ntfy_msg` (src:179-204): extract the priority via
`int(msg.get("priority", 3))` — whose exception, if any, escapes the
handler — log the event, and when the priority is at least 4 perform the
dispatch.  Returns the handler's outcome and its effect trace. -/
def handleNtfyMsg (w : World) (msg : List (String × JVal)) :
    Except PyExc Unit × List Effect :=
  match pyInt (dictGet msg "priority" (.jnum 3)) with
  | .error e => (.error e, [])
  | .ok prio =>
    if prio ≥ 4 then
      (.ok (), Effect.logInfo "ntfy message" :: Effect.logInfo "High priority detected" ::
        dispatchCall w)
    else
      (.ok (), [Effect.logInfo "ntfy message"])

/-- Model of the per-line logic of `subscribe_ntfy` (src:164-176) for one
already-decoded line: trim it, ignore it unless it starts with
`"data: "`, otherwise strip the 6-character marker and parse the
remainder as JSON (`parse` stands for `json.loads`; `none` is a
`json.JSONDecodeError`, which is logged and skipped).  The result is the
payload forwarded to the dispatcher, if any. -/
def processLine (parse : String → Option (List (String × JVal))) (raw : String) :
    Option (List (String × JVal)) :=
  let decoded := pyStrip raw
  if startsWithB "data: " decoded then parse (dropChars 6 decoded) else none

/-- The subscriber's stream loop over the lines of one connection
(src:164-177): lines are processed strictly in order and every
successfully parsed payload is forwarded to the dispatcher. -/
def subscribeLines (parse : String → Option (List (String × JVal))) :
    List String → List (List (String × JVal))
  | [] => []
  | l :: ls =>
    match processLine parse l with
    | some msg => msg :: subscribeLines parse ls
    | none => subscribeLines parse ls

/-- Outcome of one iteration of the supervisor's `while True` body: loop
again after a delay in seconds (`loggedExc` records a
`logging.exception` call), or let an exception escape the loop. -/
inductive SupAction
  | loop (delay : Nat) (loggedExc : Bool)
  | halt (e : PyExc)
  deriving DecidableEq, Repr

/-- Whether an exception is an `aiohttp.ClientError` (the class matched by
the first `except` clause of `main`, src:209). -/
def isClientError : PyExc → Bool
  | .clientError => true
  | _ => false

/-- Model of the body of `main`'s loop (src:206-214), as a function of the
outcome of `subscribe_ntfy`: a normal return loops again at once; an
`aiohttp.ClientError` waits 3 s; any other exception is logged with
`logging.exception` and waits 5 s.  `halt` would model an exception
escaping the loop; no outcome produces it. -/
def superviseBody : Except PyExc Unit → SupAction
  | .ok () => .loop 0 false
  | .error e => if isClientError e then .loop 3 false else .loop 5 true

/-- The supervisor's infinite trace: the action taken on the n-th
iteration, given the stream of subscriber outcomes. -/
def supervisorTrace (outcomes : Nat → Except PyExc Unit) (n : Nat) : SupAction :=
  superviseBody (outcomes n)

/-- A canonical fault-free environment: the connection opens, sends
succeed, and the peer answers the Login and the Originate each with one
terminated block, the login reply carrying the `"Success"` marker. -/
def wOk : World :=
  { connectFails := false, greetFails := false, sendFails := false,
    loginChunks := ["Response: Success\r\n\r\n"],
    ackChunks := ["Response: Success\r\n\r\n"] }

/-- Whether an effect is the emission of an Originate command block. -/
def isOriginateSend (e : Effect) : Bool :=
  match e with
  | .sendBlock fields => decide (("Action", "Originate") ∈ fields)
  | _ => false

/-- Whether an effect is the opening of a TCP connection. -/
def isConnectEff (e : Effect) : Bool :=
  match e with
  | .tcpConnect _ _ => true
  | _ => false

/-- Concrete stand-in for `json.loads` used by witnesses: accepts exactly
the payload `"ok"` as the empty object. -/
def parseW : String → Option (List (String × JVal)) :=
  fun s => if s = "ok" then some [] else none

end NtfyToSip

namespace NtfyToSip

/-- On a two-element list, `String.intercalate` concatenates with a single
separator (helper for the serializer characterization). -/
theorem intercalate_pair (s x y : String) :
    String.intercalate s [x, y] = x ++ s ++ y := by
  simp [String.intercalate, String.intercalate.go]

/-- The accumulator of `String.intercalate.go` factors out on the left. -/
theorem intercalate_go_factor (s : String) (l : List String) :
    ∀ a b : String, String.intercalate.go (a ++ b) s l = a ++ String.intercalate.go b s l := by
  induction l with
  | nil => intro a b; rfl
  | cons c cs ih =>
    intro a b
    show String.intercalate.go (a ++ b ++ s ++ c) s cs
        = a ++ String.intercalate.go (b ++ s ++ c) s cs
    rw [String.append_assoc, String.append_assoc, ← String.append_assoc b s c, ih]

/-- On a non-empty tail, `String.intercalate` peels off the head. -/
theorem intercalate_cons (s x : String) (l : List String) (h : l ≠ []) :
    String.intercalate s (x :: l) = x ++ s ++ String.intercalate s l := by
  cases l with
  | nil => exact absurd rfl h
  | cons y ys =>
    show String.intercalate.go x s (y :: ys) = x ++ s ++ String.intercalate.go y s ys
    show String.intercalate.go (x ++ s ++ y) s ys = x ++ s ++ String.intercalate.go y s ys
    exact intercalate_go_factor s ys (x ++ s) y

/-- C3: the command-block serializer renders the fields one per line as
`Key: Value` in insertion order, joined with CRLF and followed by an
extra blank line: a singleton block is its one line plus the terminator,
a longer block is its head line, CRLF, then the serialization of the
rest, and in particular two fields K1=V1, K2=V2 serialize to exactly
`K1 ++ ": " ++ V1 ++ "\r\n" ++ K2 ++ ": " ++ V2 ++ "\r\n\r\n"`. -/
theorem ami_line_serialization (k1 v1 k2 v2 k v : String)
    (rest : List (String × String)) (h : rest ≠ []) :
    amiLine [(k1, v1), (k2, v2)]
        = k1 ++ ": " ++ v1 ++ "\r\n" ++ k2 ++ ": " ++ v2 ++ "\r\n\r\n" ∧
    amiLine [(k, v)] = k ++ ": " ++ v ++ "\r\n\r\n" ∧
    amiLine ((k, v) :: rest) = k ++ ": " ++ v ++ "\r\n" ++ amiLine rest := by
  refine ⟨?_, ?_, ?_⟩
  · simp [amiLine, intercalate_pair, String.append_assoc]
  · simp [amiLine, String.intercalate, String.intercalate.go, String.append_assoc]
  · have hne : rest.map (fun kv => kv.1 ++ ": " ++ kv.2) ≠ [] := by
      simpa using h
    simp only [amiLine, List.map_cons]
    rw [intercalate_cons _ _ _ hne]
    simp [String.append_assoc]

/-- C3 witness: the serializer evaluated on the claim's concrete pair of
fields. -/
theorem ami_line_serialization_witness :
    amiLine [("K1", "V1"), ("K2", "V2")] = "K1: V1\r\nK2: V2\r\n\r\n" := by
  have h := (ami_line_serialization "K1" "V1" "K2" "V2" "A" "B" [("C", "D")]
    (by decide)).1
  rw [h]
  decide

/-- C1: on the event whose priority field holds the non-numeric string
"high", `handle_ntfy_msg` raises `ValueError` out of the dispatcher
instead of treating the priority as 3 — the `int()` call on src:180 is
unguarded, so a non-numeric priority does not fail safely. -/
theorem nonnumeric_priority_raises :
    handleNtfyMsg wOk [("priority", .jstr "high")]
      = (.error .valueError, []) := rfl

/-- The fault-free dispatch trace opens a TCP connection. -/
theorem dispatch_wOk_connects : (dispatchCall wOk).any isConnectEff = true := by decide

/-- The fault-free dispatch trace emits an Originate block. -/
theorem dispatch_wOk_originates : (dispatchCall wOk).any isOriginateSend = true := by decide

/-- C2: for an event whose priority field is the integer p, the
dispatcher with p ≤ 3 produces, in every environment, exactly the one
structured log line — no session, no send, no side effect beyond
logging — while in the fault-free environment it opens an AMI session
and emits the Originate block exactly when p ≥ 4. -/
theorem dispatch_iff_high_priority (w : World) (msg : List (String × JVal)) (p : Int)
    (h : dictGet msg "priority" (.jnum 3) = .jnum p) :
    (p ≤ 3 → handleNtfyMsg w msg = (.ok (), [Effect.logInfo "ntfy message"])) ∧
    ((handleNtfyMsg wOk msg).2.any isConnectEff = true ↔ 4 ≤ p) ∧
    ((handleNtfyMsg wOk msg).2.any isOriginateSend = true ↔ 4 ≤ p) := by
  have hview : ∀ w2 : World, handleNtfyMsg w2 msg =
      if p ≥ 4 then
        (.ok (), Effect.logInfo "ntfy message" :: Effect.logInfo "High priority detected" ::
          dispatchCall w2)
      else (.ok (), [Effect.logInfo "ntfy message"]) := by
    intro w2
    unfold handleNtfyMsg
    rw [h]
    rfl
  by_cases hp : (4 : Int) ≤ p
  · have hge : p ≥ 4 := hp
    refine ⟨fun hle => absurd hp (by omega), ?_, ?_⟩
    · rw [hview wOk, if_pos hge]
      simp [List.any_cons, isConnectEff, dispatch_wOk_connects, hp]
    · rw [hview wOk, if_pos hge]
      simp [List.any_cons, isOriginateSend, dispatch_wOk_originates, hp]
  · have hlt : ¬(p ≥ 4) := hp
    refine ⟨fun _ => ?_, ?_, ?_⟩
    · rw [hview w, if_neg hlt]
    · rw [hview wOk, if_neg hlt]
      simp [isConnectEff, hp]
    · rw [hview wOk, if_neg hlt]
      simp [isOriginateSend, hp]

/-- C2 witness: a priority-5 event dispatches (the fault-free trace
contains an Originate block) and a priority-2 event only logs. -/
theorem dispatch_iff_high_priority_witness :
    (handleNtfyMsg wOk [("priority", .jnum 5)]).2.any isOriginateSend = true ∧
    handleNtfyMsg wOk [("priority", .jnum 2)] = (.ok (), [Effect.logInfo "ntfy message"]) :=
  ⟨(dispatch_iff_high_priority wOk [("priority", .jnum 5)] 5 rfl).2.2.mpr (by decide),
   (dispatch_iff_high_priority wOk [("priority", .jnum 2)] 2 rfl).1 (by decide)⟩

/-- C4: whenever the priority extraction yields an integer, the handler
returns normally in EVERY environment — any exception raised during the
connect or originate steps is caught inside `handle_ntfy_msg` — and when
the connection step fails on a high-priority event, the exception is
logged (`logExc` appears in the trace) and swallowed, so the subscriber's
stream loop proceeds to the next line. -/
theorem dispatch_exceptions_contained (w : World) (msg : List (String × JVal)) (p : Int)
    (h : pyInt (dictGet msg "priority" (.jnum 3)) = .ok p) :
    (handleNtfyMsg w msg).1 = .ok () ∧
    (w.connectFails = true → 4 ≤ p → Effect.logExc ∈ (handleNtfyMsg w msg).2) := by
  have hview : handleNtfyMsg w msg =
      if p ≥ 4 then
        (.ok (), Effect.logInfo "ntfy message" :: Effect.logInfo "High priority detected" ::
          dispatchCall w)
      else (.ok (), [Effect.logInfo "ntfy message"]) := by
    unfold handleNtfyMsg
    rw [h]
  constructor
  · rw [hview]
    by_cases hp : p ≥ 4
    · rw [if_pos hp]
    · rw [if_neg hp]
  · intro hc h4
    rw [hview, if_pos h4]
    have hdc : Effect.logExc ∈ dispatchCall w := by
      unfold dispatchCall connect
      rw [hc]
      simp
    simp [hdc]

/-- C4 witness: with the TCP connection refused, a priority-5 event still
returns normally from the handler. -/
theorem dispatch_exceptions_contained_witness :
    (handleNtfyMsg { wOk with connectFails := true } [("priority", .jnum 5)]).1 = .ok () ∧
    Effect.logExc ∈ (handleNtfyMsg { wOk with connectFails := true }
      [("priority", .jnum 5)]).2 := by
  have h := dispatch_exceptions_contained { wOk with connectFails := true }
    [("priority", .jnum 5)] 5 rfl
  exact ⟨h.1, h.2 rfl (by decide)⟩

/-- C5: when the accumulated login reply lacks the literal `"Success"`,
`connect` raises the login-failure error (the spec's
`AuthenticationError`); on a dispatch of a high-priority event in such an
environment, no Originate block is ever sent on the session, the socket
is still closed (the `finally` runs `close()` on every exit path), and
the handler returns normally. -/
theorem login_failure_aborts_and_closes (w : World) (msg : List (String × JVal))
    (p : Int) (resp : String)
    (hc : w.connectFails = false) (hg : w.greetFails = false) (hs : w.sendFails = false)
    (hr : readChunks w.loginChunks "" = some resp)
    (hf : hasSubS "Success" resp = false)
    (hp : dictGet msg "priority" (.jnum 3) = .jnum p) (h4 : 4 ≤ p) :
    (connect w (mkAMIClient AMI_HOST AMI_PORT AMI_USER AMI_PASS)).2.2
        = .error (.loginFailed resp) ∧
    (handleNtfyMsg w msg).1 = .ok () ∧
    (handleNtfyMsg w msg).2.any isOriginateSend = false ∧
    Effect.sockClose ∈ (handleNtfyMsg w msg).2 := by
  have hcon : connect w (mkAMIClient AMI_HOST AMI_PORT AMI_USER AMI_PASS) =
      ({ mkAMIClient AMI_HOST AMI_PORT AMI_USER AMI_PASS with sock := some () },
        [Effect.tcpConnect AMI_HOST AMI_PORT, Effect.recvGreeting,
         Effect.sendBlock (loginFields AMI_USER AMI_PASS), Effect.readBlock],
        .error (.loginFailed resp)) := by
    simp [connect, sendCmd, readBlankOp, hc, hg, hs, hr, hf, mkAMIClient]
  have hview0 : handleNtfyMsg w msg =
      if p ≥ 4 then
        (.ok (), Effect.logInfo "ntfy message" :: Effect.logInfo "High priority detected" ::
          dispatchCall w)
      else (.ok (), [Effect.logInfo "ntfy message"]) := by
    unfold handleNtfyMsg
    rw [hp]
    rfl
  have hview : handleNtfyMsg w msg =
      (.ok (), Effect.logInfo "ntfy message" :: Effect.logInfo "High priority detected" ::
        dispatchCall w) := by
    rw [hview0, if_pos (show p ≥ 4 from h4)]
  have hdc : dispatchCall w =
      [Effect.tcpConnect AMI_HOST AMI_PORT, Effect.recvGreeting,
       Effect.sendBlock (loginFields AMI_USER AMI_PASS), Effect.readBlock,
       Effect.logExc, Effect.sendBlock logoffFields, Effect.sockClose] := by
    simp only [dispatchCall]
    rw [hcon]
    simp [closeClient, sendCmd, hs]
  refine ⟨by rw [hcon], by rw [hview], ?_, ?_⟩
  · rw [hview]
    simp [hdc, isOriginateSend, loginFields, logoffFields]
  · rw [hview]
    simp [hdc]

/-- C5 witness: a concrete environment whose login reply is
`"Authentication failed\r\n\r\n"` makes `connect` fail with the
login-failure error on a priority-5 event. -/
theorem login_failure_aborts_and_closes_witness :
    (connect { wOk with loginChunks := ["Authentication failed\r\n\r\n"] }
        (mkAMIClient AMI_HOST AMI_PORT AMI_USER AMI_PASS)).2.2
      = .error (.loginFailed "Authentication failed\r\n\r\n") :=
  (login_failure_aborts_and_closes
    { wOk with loginChunks := ["Authentication failed\r\n\r\n"] }
    [("priority", .jnum 5)] 5 "Authentication failed\r\n\r\n"
    rfl rfl rfl (by decide) (by decide) rfl (by decide)).1

/-- C6 counterexample: with the peer's bytes chunked as `"\r\n"`,
`"\r\n"`, `"X"`, then close, the blank-line terminator stands in the
accumulated response after the second chunk, yet the receive loop — which
tests each chunk in isolation (`if b"\r\n\r\n" in data`) — keeps going:
it performs all four `recv` calls and returns the extra byte, so it does
not stop exactly when the terminator is observed in the accumulated
bytes, and it differs from the spec-worded accumulating reader. -/
theorem read_split_terminator_cex :
    readChunks ["\r\n", "\r\n", "X", ""] "" = some "\r\n\r\nX" ∧
    readChunksAccum ["\r\n", "\r\n", "X", ""] "" = some "\r\n\r\n" ∧
    hasSubS "\r\n\r\n" ("" ++ "\r\n" ++ "\r\n") = true ∧
    readConsumed ["\r\n", "\r\n", "X", ""] = 4 ∧
    readChunks ["\r\n", "\r\n", "X", ""] "" ≠ readChunksAccum ["\r\n", "\r\n", "X", ""] "" := by
  refine ⟨by decide, by decide, by decide, by decide, by decide⟩

/-- C6 as amended: the receive loop accumulates chunks and stops exactly
when the current chunk is empty (peer closed) or itself contains the
blank-line terminator; a terminator split across two chunk boundaries is
not detected, and when the data runs out the read blocks until the
timeout fires (`none`). -/
theorem read_until_blank_chunk_local (c acc : String) (rest : List String) :
    (readChunks [] acc = none) ∧
    (c = "" → readChunks (c :: rest) acc = some acc) ∧
    (c ≠ "" → hasSubS "\r\n\r\n" c = true → readChunks (c :: rest) acc = some (acc ++ c)) ∧
    (c ≠ "" → hasSubS "\r\n\r\n" c = false →
      readChunks (c :: rest) acc = readChunks rest (acc ++ c)) := by
  refine ⟨rfl, ?_, ?_, ?_⟩
  · intro h
    simp [readChunks, h]
  · intro h1 h2
    simp [readChunks, h1, h2]
  · intro h1 h2
    simp [readChunks, h1, h2]

/-- C6 amended-claim witness: a response delivered whole in a second
chunk ends the read with the concatenation of both chunks. -/
theorem read_until_blank_chunk_local_witness :
    readChunks ["ab", "cd\r\n\r\n"] "" = some ("" ++ "ab" ++ "cd\r\n\r\n") := by
  have h1 := (read_until_blank_chunk_local "ab" "" ["cd\r\n\r\n"]).2.2.2
    (by decide) (by decide)
  have h2 := (read_until_blank_chunk_local "cd\r\n\r\n" ("" ++ "ab") []).2.2.1
    (by decide) (by decide)
  rw [h1, h2]

/-- C7: a line whose stripped form does not start with `"data: "` is
ignored; otherwise the six-character marker is stripped and the remainder
handed to the JSON parser; a payload the parser rejects is skipped
without disturbing the loop, and a payload it accepts is forwarded ahead
of the rest of the stream's messages — so one malformed frame never
blocks the frames after it. -/
theorem sse_line_filtering (parse : String → Option (List (String × JVal)))
    (l : String) (ls : List String) :
    (startsWithB "data: " (pyStrip l) = false →
      processLine parse l = none ∧
      subscribeLines parse (l :: ls) = subscribeLines parse ls) ∧
    (startsWithB "data: " (pyStrip l) = true →
      processLine parse l = parse (dropChars 6 (pyStrip l))) ∧
    (parse (dropChars 6 (pyStrip l)) = none →
      subscribeLines parse (l :: ls) = subscribeLines parse ls) ∧
    (∀ msg, startsWithB "data: " (pyStrip l) = true →
      parse (dropChars 6 (pyStrip l)) = some msg →
      subscribeLines parse (l :: ls) = msg :: subscribeLines parse ls) := by
  refine ⟨?_, ?_, ?_, ?_⟩
  · intro hs
    have hn : processLine parse l = none := by
      simp [processLine, hs]
    exact ⟨hn, by simp [subscribeLines, hn]⟩
  · intro hs
    simp [processLine, hs]
  · intro hn
    by_cases hs : startsWithB "data: " (pyStrip l) = true
    · have hp : processLine parse l = none := by
        simp [processLine, hs, hn]
      simp [subscribeLines, hp]
    · have hp : processLine parse l = none := by
        simp [processLine, hs]
      simp [subscribeLines, hp]
  · intro msg hs hsome
    have hp : processLine parse l = some msg := by
      simp [processLine, hs, hsome]
    simp [subscribeLines, hp]

/-- C7 witness: a malformed payload followed by a well-formed one — the
bad frame is dropped and the good frame is still parsed and forwarded. -/
theorem sse_line_filtering_witness :
    subscribeLines parseW ["data: bad", "data: ok"] = subscribeLines parseW ["data: ok"] ∧
    subscribeLines parseW ["data: ok"] = [] :: subscribeLines parseW [] :=
  ⟨(sse_line_filtering parseW "data: bad" ["data: ok"]).2.2.1 (by decide),
   (sse_line_filtering parseW "data: ok" []).2.2.2 [] (by decide) (by decide)⟩

/-- C8: `close()` never propagates errors: it is total in the model, the
resulting client state does not depend on whether the best-effort Logoff
send failed, the socket field is always cleared, an open socket is always
closed, a second call in a row is a pure no-op, and a call on a
never-connected client is a pure no-op. -/
theorem close_idempotent_and_total (w w2 : World) (c : AMIClient) :
    ((closeClient w c).1.sock = none) ∧
    (closeClient w2 (closeClient w c).1 = ((closeClient w c).1, [])) ∧
    (c.sock = none → closeClient w c = (c, [])) ∧
    ((closeClient w c).1 = (closeClient w2 c).1) ∧
    (c.sock = some () → Effect.sockClose ∈ (closeClient w c).2) := by
  cases hs : c.sock with
  | none =>
    refine ⟨?_, ?_, ?_, ?_, ?_⟩ <;>
      simp [closeClient, hs]
  | some u =>
    cases u
    refine ⟨?_, ?_, ?_, ?_, ?_⟩ <;>
      simp [closeClient, sendCmd, hs]

/-- C8 witness: closing a connected client clears and closes its socket;
closing a fresh client is a no-op. -/
theorem close_idempotent_and_total_witness :
    Effect.sockClose ∈ (closeClient wOk
      { mkAMIClient AMI_HOST AMI_PORT AMI_USER AMI_PASS with sock := some () }).2 ∧
    closeClient wOk (mkAMIClient AMI_HOST AMI_PORT AMI_USER AMI_PASS)
      = (mkAMIClient AMI_HOST AMI_PORT AMI_USER AMI_PASS, []) :=
  ⟨(close_idempotent_and_total wOk wOk
      { mkAMIClient AMI_HOST AMI_PORT AMI_USER AMI_PASS with sock := some () }).2.2.2.2 rfl,
   (close_idempotent_and_total wOk wOk
      (mkAMIClient AMI_HOST AMI_PORT AMI_USER AMI_PASS)).2.2.1 rfl⟩

/-- C9: the supervisor loop has no terminal state — on every iteration n,
whatever the subscriber outcome, it takes a `loop` action and never a
`halt` (no exception escapes, no retry cap); an `aiohttp.ClientError`
makes it wait 3 s, and any other exception is logged and makes it wait
5 s before re-subscribing. -/
theorem supervisor_never_halts (outcomes : Nat → Except PyExc Unit) (n : Nat) :
    (∃ d b, supervisorTrace outcomes n = .loop d b) ∧
    (∀ e, supervisorTrace outcomes n ≠ .halt e) ∧
    (outcomes n = .error .clientError → supervisorTrace outcomes n = .loop 3 false) ∧
    (∀ e, outcomes n = .error e → isClientError e = false →
      supervisorTrace outcomes n = .loop 5 true) := by
  cases ho : outcomes n with
  | ok u =>
    cases u
    refine ⟨⟨0, false, ?_⟩, ?_, ?_, ?_⟩ <;>
      simp [supervisorTrace, superviseBody, ho]
  | error e =>
    refine ⟨?_, ?_, ?_, ?_⟩
    · by_cases he : isClientError e = true
      · exact ⟨3, false, by simp [supervisorTrace, superviseBody, ho, he]⟩
      · exact ⟨5, true, by simp [supervisorTrace, superviseBody, ho, he]⟩
    · intro e2
      by_cases he : isClientError e = true <;>
        simp [supervisorTrace, superviseBody, ho, he]
    · intro h
      injection h with h2
      simp [supervisorTrace, superviseBody, ho, h2, isClientError]
    · intro e2 h hf
      injection h with h2
      subst h2
      simp [supervisorTrace, superviseBody, ho, hf]

/-- C9 witness: a stream of transport errors yields a 3 s backoff and a
stream of unexpected errors a logged 5 s backoff, on iteration 0. -/
theorem supervisor_never_halts_witness :
    supervisorTrace (fun _ => .error .clientError) 0 = .loop 3 false ∧
    supervisorTrace (fun _ => .error .osError) 0 = .loop 5 true :=
  ⟨(supervisor_never_halts (fun _ => .error .clientError) 0).2.2.1 rfl,
   (supervisor_never_halts (fun _ => .error .osError) 0).2.2.2 .osError rfl rfl⟩

/-- C10: on a client whose socket is not open — freshly constructed, or
left behind by `close()`, which always clears the socket field — `_send`,
`_read_until_blank`, and hence `originate_simple` each fail with the
clean `RuntimeError("AMI connection not open")` and perform no side
effect at all. -/
theorem not_open_is_clean_runtime_error (w : World) (c : AMIClient)
    (fields : List (String × String)) (chunks : List String)
    (channel exten ctx : String) (prio : Int) (cid : String) (tmo : Int) :
    (c.sock = none → sendCmd w c fields = ([], .error .notOpen)) ∧
    (c.sock = none → readBlankOp c chunks = ([], .error .notOpen)) ∧
    (c.sock = none →
      originateSimple w c channel exten ctx prio cid tmo = ([], .error .notOpen)) ∧
    ((mkAMIClient AMI_HOST AMI_PORT AMI_USER AMI_PASS).sock = none) ∧
    ((closeClient w c).1.sock = none) := by
  refine ⟨?_, ?_, ?_, rfl, ?_⟩
  · intro h
    simp [sendCmd, h]
  · intro h
    simp [readBlankOp, h]
  · intro h
    simp [originateSimple, sendCmd, h]
  · cases hs : c.sock <;> simp [closeClient, hs]

/-- C10 witness: originating on a never-connected client raises the
not-open error without any effect. -/
theorem not_open_is_clean_runtime_error_witness :
    originateSimple wOk (mkAMIClient AMI_HOST AMI_PORT AMI_USER AMI_PASS)
      DIAL_STRING EXTENSION CONTEXT PRIORITY CALLERID TIMEOUT_MS
      = ([], .error .notOpen) :=
  (not_open_is_clean_runtime_error wOk (mkAMIClient AMI_HOST AMI_PORT AMI_USER AMI_PASS)
    [] [] DIAL_STRING EXTENSION CONTEXT PRIORITY CALLERID TIMEOUT_MS).2.2.1 rfl

end NtfyToSip
